import Mathlib

/-! Verification development for the gryds deformable B-spline point
transformation, source file src/gryds/transformers/bspline.py.  Machine
floating-point numbers are idealised as rational numbers; numpy arrays are
embedded as flat row-major data lists paired with an explicit shape.  The
spline-evaluation primitive, the configuration module fixing the numeric
precision, and the abstract transformation base class are external to the
source file and are modelled from the specification where noted. -/

attribute [local semireducible] Rat.add Rat.mul Rat.sub Rat.inv Rat.ofScientific

deriving instance DecidableEq for Except

/-- Modelled from the spec: the fixed numeric precision.  The module
gryds.config that defines DTYPE is not among the sources; the spec fixes one
floating-point precision shared by the grid, the configuration and every point
batch, with any other precision being a usage error. -/
inductive Dtype where
  | float64 : Dtype
  | float32 : Dtype
  deriving DecidableEq

/-- Modelled from the spec: the default fixed precision tag. -/
def DTYPE : Dtype := Dtype.float64

/-- A dense n-dimensional numeric array: an explicit shape and the row-major
list of entries. -/
structure NdArray where
  shape : List Nat
  data : List Rat
  deriving DecidableEq

/-- Error taxonomy of the spec.  shapeError carries the message of the
ValueError raised by the source constructor; indexError is the failure of
reading the leading axis length of a rank-zero array; precisionError embeds
the dtype assertion of the mapping method; configError embeds the rejection of
an invalid order or boundary mode by the sampling primitive. -/
inductive GrydsError where
  | indexError : GrydsError
  | shapeError : String → GrydsError
  | precisionError : GrydsError
  | configError : GrydsError
  deriving DecidableEq

/-- The message of the constructor ValueError, built exactly as in the source:
a fixed text followed by the expected dimensionality (rank minus one) and a
final period.  No other value is formatted into it. -/
def shapeErrorMessage (expected : Nat) : String :=
  "First axis of grid should be equal to transform\x27s ndim " ++ toString expected ++ "."

/-- The state stored by a constructed transform: dimensionality, the owned
control-point grid, the spline order, the boundary mode and the constant fill
value. -/
structure BSplineTransformation where
  ndim : Nat
  parameters : NdArray
  bspline_order : Int
  mode : String
  cval : Rat
  deriving DecidableEq

/-- Embeds BSplineTransformation.__init__.  The source converts the grid to
DTYPE, raises ValueError when the leading axis length differs from rank minus
one, stores order, mode and cval unchecked, and hands ndim (the leading axis
length) and the grid to the base initializer, which the spec describes as
storing them.  The identity comparison written in the source coincides with
value comparison on every reachable input, since both sides are small interned
integers (an array rank never exceeds the interning range). -/
def bsplineInit (grid : NdArray) (order : Int) (mode : String) (cval : Rat) :
    Except GrydsError BSplineTransformation :=
  match grid.shape with
  | [] => Except.error GrydsError.indexError
  | n0 :: rest =>
    if n0 ≠ (n0 :: rest).length - 1 then
      Except.error (GrydsError.shapeError (shapeErrorMessage ((n0 :: rest).length - 1)))
    else
      Except.ok
        { ndim := n0, parameters := grid, bspline_order := order, mode := mode, cval := cval }

/-- The boundary modes accepted by the sampling primitive. -/
def validModes : List String := ["constant", "nearest", "mirror", "reflect", "wrap"]

/-- Ceiling of a rational number, through the floor of its negation. -/
def ratCeil (q : Rat) : Int := -((-q).floor)

/-- Nearest integer with ties broken toward the lower index, as the spec
states for order-zero sampling. -/
def roundHalfDown (q : Rat) : Int := ratCeil (q - 1/2)

/-- Modelled from the spec: the centered cardinal B-spline basis function of a
given order, by the standard convolution recursion.  Order zero is the unit
box, order one the linear hat, and each step convolves with the box. -/
def bsplineBasis : Nat → Rat → Rat
  | 0, x => if -(1/2) ≤ x ∧ x < 1/2 then 1 else 0
  | k + 1, x =>
      ((x + ((k : Rat) + 2) / 2) * bsplineBasis k (x + 1/2)
          + (((k : Rat) + 2) / 2 - x) * bsplineBasis k (x - 1/2)) / ((k : Rat) + 1)

/-- The consecutive integer indices on one axis whose basis weight can be
nonzero for a query position: a window of order plus two integers starting at
the ceiling of the position minus half the support width. -/
def axisWindow (order : Nat) (q : Rat) : List Int :=
  (List.range (order + 2)).map (fun t => ratCeil (q - ((order : Rat) + 1) / 2) + (t : Int))

/-- All tuples of per-axis window indices for a multi-dimensional query. -/
def indexWindows (order : Nat) (qs : List Rat) : List (List Int) :=
  qs.foldr
    (fun q acc => (axisWindow order q).flatMap (fun i => acc.map (fun js => i :: js)))
    [[]]

/-- Modelled from the spec: the boundary-extension policies.  An integer index
on an axis of the given length is mapped into the stored range: nearest clamps
to the edge sample, wrap is periodic, mirror reflects without repeating the
edge sample, reflect reflects repeating the edge sample, and constant yields
none outside the extent so that the fill value is used. -/
def foldIndex (mode : String) (n : Nat) (i : Int) : Option Nat :=
  if n = 0 then none
  else if mode = "nearest" then some ((min (max i 0) ((n : Int) - 1)).toNat)
  else if mode = "wrap" then some (i.emod (n : Int)).toNat
  else if mode = "mirror" then
    (if n = 1 then some 0
     else
       (let r := i.emod (2 * (n : Int) - 2)
        if (n : Int) ≤ r then some (2 * (n : Int) - 2 - r).toNat else some r.toNat))
  else if mode = "reflect" then
    (let r := i.emod (2 * (n : Int))
     if (n : Int) ≤ r then some (2 * (n : Int) - 1 - r).toNat else some r.toNat)
  else if 0 ≤ i ∧ i < (n : Int) then some i.toNat else none

/-- Folds a whole index tuple axis by axis; none as soon as the constant
policy refers beyond the extent. -/
def foldAll (mode : String) : List Nat → List Int → Option (List Nat)
  | _, [] => some []
  | [], _ :: _ => some []
  | n :: ns, i :: is =>
    match foldIndex mode n i, foldAll mode ns is with
    | some k, some ks => some (k :: ks)
    | _, _ => none

/-- Row-major flattening of a multi-index for the given shape. -/
def flatIndex (shape idx : List Nat) : Nat :=
  (idx.zip shape).foldl (fun acc p => acc * p.2 + p.1) 0

/-- The sample of the extended array at an integer index tuple: the stored
entry at the folded index, or the constant fill value beyond the extent. -/
def extendedValue (mode : String) (cval : Rat) (A : NdArray) (js : List Int) : Rat :=
  match foldAll mode A.shape js with
  | none => cval
  | some idx => A.data.getD (flatIndex A.shape idx) 0

/-- Modelled from the spec: one spline-evaluated sample of an array at a
fractional index-space position.  Order zero takes the nearest node with ties
toward the lower index; positive orders evaluate the tensor-product B-spline
sum of the boundary-extended samples over the finite basis support.  For
orders zero and one this is exactly the contract of the external primitive;
the spec moreover requires higher orders to fit the spline through the
samples, a prefilter that is linear and vanishes on all-zero grids, which is
the only regime in which higher orders are exercised below. -/
def mapCoordinatesAt (A : NdArray) (order : Nat) (mode : String) (cval : Rat)
    (q : List Rat) : Rat :=
  if order = 0 then extendedValue mode cval A (q.map roundHalfDown)
  else
    ((indexWindows order q).map (fun js =>
      (List.zipWith (fun qd (jd : Int) => bsplineBasis order (qd - (jd : Rat))) q js).prod
        * extendedValue mode cval A js)).sum

/-- Modelled from the spec: the external sampling primitive applied to a batch
of query positions.  A negative order and an unrecognised boundary mode are
rejected with the configuration error; otherwise one interpolated scalar is
returned per query. -/
def map_coordinates (A : NdArray) (order : Int) (mode : String) (cval : Rat)
    (coords : List (List Rat)) : Except GrydsError (List Rat) :=
  if order < 0 then Except.error GrydsError.configError
  else if mode ∈ validModes then
    Except.ok (coords.map (mapCoordinatesAt A order.toNat mode cval))
  else Except.error GrydsError.configError

/-- The component sub-array of the parameter grid along its leading axis: the
spatial shape together with the corresponding row-major slice of the data. -/
def componentArray (params : NdArray) (d : Nat) : NdArray :=
  { shape := params.shape.tail
    data := (params.data.drop (d * params.shape.tail.prod)).take params.shape.tail.prod }

/-- The components iterated over by the mapping loop: one per entry of the
leading axis of the parameter array. -/
def components (params : NdArray) : List NdArray :=
  (List.range (params.shape.headD 0)).map (componentArray params)

/-- The rescale step: coordinate d of a point is multiplied by the spatial
extent of axis d minus one. -/
def scalePoint (spatial : List Nat) (pt : List Rat) : List Rat :=
  List.zipWith (fun q n => q * ((n : Rat) - 1)) pt spatial

/-- The sampling loop over grid components: the first failure aborts, as the
raised exception does in the source. -/
def mapExcept (f : NdArray → Except GrydsError (List Rat)) :
    List NdArray → Except GrydsError (List (List Rat))
  | [] => Except.ok []
  | a :: l =>
    match f a with
    | Except.error e => Except.error e
    | Except.ok b =>
      match mapExcept f l with
      | Except.error e => Except.error e
      | Except.ok bs => Except.ok (b :: bs)

/-- Elementwise addition of the assembled displacement to the points: point
number i receives column i of the per-component displacement lists. -/
def addDisplacement (disp : List (List Rat)) : Nat → List (List Rat) → List (List Rat)
  | _, [] => []
  | i, pt :: pts =>
    List.zipWith (fun a b => a + b) pt (disp.map (fun comp => comp.getD i 0)) ::
      addDisplacement disp (i + 1) pts

/-- A batch of query points: a precision tag and one coordinate tuple per
point.  The spec describes the public mapping entry as receiving a batch of
ndim-tuples; the source method works on the transposed layout, which this
embedding absorbs by indexing points rather than axes. -/
structure PointBatch where
  dtype : Dtype
  points : List (List Rat)
  deriving DecidableEq

/-- Embeds BSplineTransformation._transform_points, the forward point mapper:
assert the precision, rescale every point into grid-index space, sample every
grid component at the rescaled positions, and add the assembled displacement
to the input points.  The dtype assertion of the source is the precision
error of the spec. -/
def transform_points (t : BSplineTransformation) (p : PointBatch) :
    Except GrydsError PointBatch :=
  if p.dtype ≠ DTYPE then Except.error GrydsError.precisionError
  else
    match mapExcept
        (fun comp => map_coordinates comp t.bspline_order t.mode t.cval
          (p.points.map (scalePoint t.parameters.shape.tail)))
        (components t.parameters) with
    | Except.error e => Except.error e
    | Except.ok disp =>
      Except.ok { dtype := p.dtype, points := addDisplacement disp 0 p.points }

/-- The displacement vector assembled for one point: one sampled scalar per
grid component at the rescaled position of that point. -/
def displacementVec (t : BSplineTransformation) (pt : List Rat) : List Rat :=
  (components t.parameters).map (fun comp =>
    mapCoordinatesAt comp t.bspline_order.toNat t.mode t.cval
      (scalePoint t.parameters.shape.tail pt))

/-- A heap of array cells, for the ownership and aliasing claims: the caller
array and the copy owned by the transform are distinct cells. -/
structure Heap where
  cells : List NdArray
  deriving DecidableEq

/-- Reads the array stored in a heap cell. -/
def readCell (h : Heap) (r : Nat) : NdArray := h.cells.getD r { shape := [], data := [] }

/-- Overwrites the array stored in a heap cell: mutation of a caller-held
array. -/
def writeCell (h : Heap) (r : Nat) (g : NdArray) : Heap := { cells := h.cells.set r g }

/-- A transform whose parameter grid lives in a heap cell. -/
structure BSplineTransformationRef where
  paramsRef : Nat
  bspline_order : Int
  mode : String
  cval : Rat
  ndim : Nat
  deriving DecidableEq

/-- Heap-level construction: the source converts the caller grid with np.array,
which allocates a fresh array, so the validated copy is placed in a new cell
and the transform keeps a reference to that cell only. -/
def bsplineInitHeap (h : Heap) (r : Nat) (order : Int) (mode : String) (cval : Rat) :
    Except GrydsError (Heap × BSplineTransformationRef) :=
  match bsplineInit (readCell h r) order mode cval with
  | Except.error e => Except.error e
  | Except.ok t =>
    Except.ok
      ({ cells := h.cells ++ [t.parameters] },
        { paramsRef := h.cells.length, bspline_order := t.bspline_order,
          mode := t.mode, cval := t.cval, ndim := t.ndim })

/-- The transform value read back from the heap. -/
def derefTransform (h : Heap) (tr : BSplineTransformationRef) : BSplineTransformation :=
  { ndim := tr.ndim, parameters := readCell h tr.paramsRef,
    bspline_order := tr.bspline_order, mode := tr.mode, cval := tr.cval }

/-- Heap-level mapping: reads the owned grid cell and maps the batch. -/
def transformPointsHeap (h : Heap) (tr : BSplineTransformationRef) (p : PointBatch) :
    Except GrydsError PointBatch :=
  transform_points (derefTransform h tr) p

/-- State-passing form of the mapping method: the source method reads the
stored grid and configuration and assigns nothing, so the heap and the
transform come back unchanged alongside the output batch. -/
def transformPointsMethod (h : Heap) (tr : BSplineTransformationRef) (p : PointBatch) :
    Except GrydsError (PointBatch × Heap × BSplineTransformationRef) :=
  match transformPointsHeap h tr p with
  | Except.error e => Except.error e
  | Except.ok out => Except.ok (out, h, tr)

/-- Runs a sequence of mapping calls, threading the heap and the transform. -/
def runCalls (h : Heap) (tr : BSplineTransformationRef) :
    List PointBatch → Heap × BSplineTransformationRef
  | [] => (h, tr)
  | p :: ps =>
    match transformPointsMethod h tr p with
    | Except.ok out => runCalls out.2.1 out.2.2 ps
    | Except.error _ => runCalls h tr ps

/-- Substring test on character lists, for claims about what an error message
names. -/
def containsSub (l sub : List Char) : Bool :=
  (List.range (l.length + 1)).any (fun i => sub.isPrefixOf (l.drop i))

/-- The concrete scenario grid of the spec: two components over a three by
three lattice, the first constantly one tenth, the second constantly minus
one tenth. -/
def exGrid : NdArray :=
  { shape := [2, 3, 3], data := List.replicate 9 (1/10) ++ List.replicate 9 (-(1/10)) }

/-- The transform built from the scenario grid with linear order and mirror
boundary. -/
def exTransform : BSplineTransformation :=
  { ndim := 2, parameters := exGrid, bspline_order := 1, mode := "mirror", cval := 0 }

/-- C3: for the two-dimensional transform over the 2 x 3 x 3 grid whose first
component is one tenth everywhere and whose second is minus one tenth
everywhere, with linear order and mirror boundary, the query point
(1/2, 1/2) is rescaled to grid-index coordinates (1, 1) and maps to
(6/10, 4/10). -/
theorem mirror_linear_scenario :
    bsplineInit exGrid 1 "mirror" 0 = Except.ok exTransform
    ∧ scalePoint [3, 3] [1/2, 1/2] = [1, 1]
    ∧ transform_points exTransform { dtype := DTYPE, points := [[1/2, 1/2]] } =
        Except.ok { dtype := DTYPE, points := [[3/5, 2/5]] } := by decide

/-- C10: the rank-one grid of shape (0,) passes the shape check, since its
leading axis length 0 equals its rank minus one, so construction succeeds and
yields a degenerate transform with ndim equal to 0 and an empty parameter
array instead of failing. -/
theorem zero_ndim_degenerate_construction :
    bsplineInit { shape := [0], data := [] } 3 "mirror" 0 =
      Except.ok (BSplineTransformation.mk 0 { shape := [0], data := [] } 3 "mirror" 0) := by
  decide

/-- C5: a point batch whose precision tag differs from the fixed precision is
rejected by the mapping with the precision error before anything is computed. -/
theorem precision_mismatch_fails (t : BSplineTransformation) (p : PointBatch)
    (h : p.dtype ≠ DTYPE) :
    transform_points t p = Except.error GrydsError.precisionError := by
  unfold transform_points
  rw [if_pos h]

/-- C5 witness: a single-precision batch is rejected by the scenario
transform. -/
theorem precision_mismatch_fails_witness :
    Dtype.float32 ≠ DTYPE
    ∧ transform_points exTransform { dtype := Dtype.float32, points := [[1/2, 1/2]] } =
        Except.error GrydsError.precisionError :=
  ⟨by decide, precision_mismatch_fails exTransform
    { dtype := Dtype.float32, points := [[1/2, 1/2]] } (by decide)⟩

/-- C6 counterexample: for the rank-two grid of shape (3, 2) the expected
leading length is 1 and the actual is 3; construction fails, the message
contains the decimal digits of the expected value 1 but not those of the
actual leading length 3, so the message does not name the actual value. -/
theorem shape_error_message_counterexample :
    bsplineInit { shape := [3, 2], data := List.replicate 6 0 } 3 "mirror" 0 =
      Except.error (GrydsError.shapeError (shapeErrorMessage 1))
    ∧ containsSub (shapeErrorMessage 1).data (toString (1 : Nat)).data = true
    ∧ containsSub (shapeErrorMessage 1).data (toString (3 : Nat)).data = false := by decide

/-- A list occurs as a contiguous run of any list of the form a ++ b ++ c,
witnessed by dropping the leading part. -/
theorem containsSub_append_mid (a b c : List Char) : containsSub (a ++ b ++ c) b = true := by
  unfold containsSub
  apply List.any_eq_true.2
  refine ⟨a.length, List.mem_range.2 ?_, ?_⟩
  · simp only [List.length_append]
    omega
  · rw [List.append_assoc, List.drop_left]
    exact List.isPrefixOf_iff_prefix.2 (List.prefix_append b c)

/-- C6 (amended): when construction fails because the leading axis length
differs from rank minus one, the message of the raised error names the
expected value (rank minus one) and is a function of that expected value
alone; the actual leading axis length of the supplied grid is not part of
it. -/
theorem shape_error_message_expected_only (g : NdArray) (order : Int) (mode : String)
    (cval : Rat) (n0 : Nat) (rest : List Nat) (hs : g.shape = n0 :: rest)
    (hne : n0 ≠ (n0 :: rest).length - 1) :
    bsplineInit g order mode cval =
      Except.error (GrydsError.shapeError (shapeErrorMessage ((n0 :: rest).length - 1)))
    ∧ containsSub (shapeErrorMessage ((n0 :: rest).length - 1)).data
        (toString ((n0 :: rest).length - 1)).data = true := by
  constructor
  · simp only [bsplineInit, hs]
    rw [if_pos hne]
  · unfold shapeErrorMessage
    rw [String.data_append, String.data_append]
    exact containsSub_append_mid _ _ _

/-- C6 (amended) witness: the rank-two grid of shape (2, 4) fails the check
and produces the message naming the expected value 1. -/
theorem shape_error_message_expected_only_witness :
    ({ shape := [2, 4], data := List.replicate 8 0 } : NdArray).shape = 2 :: [4]
    ∧ (2 : Nat) ≠ (2 :: [4]).length - 1
    ∧ (bsplineInit { shape := [2, 4], data := List.replicate 8 0 } 3 "mirror" 0 =
        Except.error (GrydsError.shapeError (shapeErrorMessage ((2 :: [4]).length - 1)))
      ∧ containsSub (shapeErrorMessage ((2 :: [4]).length - 1)).data
          (toString ((2 :: ([4] : List Nat)).length - 1)).data = true) :=
  ⟨rfl, by decide,
    shape_error_message_expected_only { shape := [2, 4], data := List.replicate 8 0 }
      3 "mirror" 0 2 [4] rfl (by decide)⟩

/-- C1: for a grid of rank at least one, construction fails with the shape
error exactly when the leading axis length differs from rank minus one, and
when they agree construction succeeds and the dimensionality of the transform
equals that leading axis length. -/
theorem bspline_init_shape_validation (g : NdArray) (order : Int) (mode : String)
    (cval : Rat) (n0 : Nat) (rest : List Nat) (hs : g.shape = n0 :: rest) :
    (n0 ≠ g.shape.length - 1 →
      ∃ msg, bsplineInit g order mode cval = Except.error (GrydsError.shapeError msg))
    ∧ (n0 = g.shape.length - 1 →
      ∃ t, bsplineInit g order mode cval = Except.ok t ∧ t.ndim = n0) := by
  constructor
  · intro hne
    rw [hs] at hne
    refine ⟨shapeErrorMessage ((n0 :: rest).length - 1), ?_⟩
    simp only [bsplineInit, hs]
    rw [if_pos hne]
  · intro heq
    rw [hs] at heq
    refine ⟨BSplineTransformation.mk n0 g order mode cval, ?_, rfl⟩
    simp only [bsplineInit, hs]
    rw [if_neg (fun hcon => hcon heq)]

/-- C1 witness: the rank-two grid of shape (1, 5) has leading axis length
equal to rank minus one, so construction succeeds with dimensionality one. -/
theorem bspline_init_shape_validation_witness :
    ({ shape := [1, 5], data := List.replicate 5 0 } : NdArray).shape = 1 :: [5]
    ∧ (((1 : Nat) ≠ ({ shape := [1, 5], data := List.replicate 5 0 } : NdArray).shape.length - 1 →
        ∃ msg, bsplineInit { shape := [1, 5], data := List.replicate 5 0 } 3 "mirror" 0 =
          Except.error (GrydsError.shapeError msg))
      ∧ ((1 : Nat) = ({ shape := [1, 5], data := List.replicate 5 0 } : NdArray).shape.length - 1 →
        ∃ t, bsplineInit { shape := [1, 5], data := List.replicate 5 0 } 3 "mirror" 0 =
          Except.ok t ∧ t.ndim = 1)) :=
  ⟨rfl, bspline_init_shape_validation { shape := [1, 5], data := List.replicate 5 0 }
    3 "mirror" 0 1 [5] rfl⟩

/-- The rescale step applied at one axis: the entry at position d of the
rescaled point is the entry of the point times the spatial extent of that
axis minus one. -/
theorem scalePoint_getD : ∀ (spatial : List Nat) (pt : List Rat) (d : Nat),
    d < pt.length → d < spatial.length →
    (scalePoint spatial pt).getD d 0 = pt.getD d 0 * ((spatial.getD d 0 : Rat) - 1)
  | [], _, d, _, h2 => absurd h2 (by simp)
  | _ :: _, [], d, h1, _ => absurd h1 (by simp)
  | n :: ns, a :: pt, 0, _, _ => rfl
  | n :: ns, a :: pt, d + 1, h1, h2 =>
      scalePoint_getD ns pt d (Nat.lt_of_succ_lt_succ h1) (Nat.lt_of_succ_lt_succ h2)

/-- C4: before any sampling, coordinate d of every query point is multiplied
by the spatial extent of axis d minus one, for every grid resolution; in
particular normalized coordinate 0 lands on grid index 0 and normalized
coordinate 1 lands on the last grid index of that axis. -/
theorem rescale_by_shape_minus_one (spatial : List Nat) (pt : List Rat) (d : Nat)
    (h1 : d < pt.length) (h2 : d < spatial.length) :
    (scalePoint spatial pt).getD d 0 = pt.getD d 0 * ((spatial.getD d 0 : Rat) - 1)
    ∧ (pt.getD d 0 = 0 → (scalePoint spatial pt).getD d 0 = 0)
    ∧ (pt.getD d 0 = 1 → (scalePoint spatial pt).getD d 0 = (spatial.getD d 0 : Rat) - 1) := by
  have h := scalePoint_getD spatial pt d h1 h2
  refine ⟨h, ?_, ?_⟩
  · intro h0
    rw [h, h0, zero_mul]
  · intro hone
    rw [h, hone, one_mul]

/-- C4 witness: on the axis extents (4, 7), the point (1, 1/2) is rescaled on
axis 0 from 1 to 3, the last grid index of that axis. -/
theorem rescale_by_shape_minus_one_witness :
    (0 : Nat) < ([(1 : Rat), 1/2]).length
    ∧ (0 : Nat) < ([4, 7] : List Nat).length
    ∧ ((scalePoint [4, 7] [(1 : Rat), 1/2]).getD 0 0 =
        ([(1 : Rat), 1/2]).getD 0 0 * ((([4, 7] : List Nat).getD 0 0 : Rat) - 1)
      ∧ (([(1 : Rat), 1/2]).getD 0 0 = 0 → (scalePoint [4, 7] [(1 : Rat), 1/2]).getD 0 0 = 0)
      ∧ (([(1 : Rat), 1/2]).getD 0 0 = 1 →
          (scalePoint [4, 7] [(1 : Rat), 1/2]).getD 0 0 =
            ((([4, 7] : List Nat).getD 0 0 : Rat) - 1))) :=
  ⟨by decide, by decide, rescale_by_shape_minus_one [4, 7] [(1 : Rat), 1/2] 0 (by decide) (by decide)⟩

/-- Reading any position of an all-zero list with default zero gives zero. -/
theorem getD_zero_of_all_zero : ∀ (l : List Rat) (i : Nat), (∀ x ∈ l, x = 0) → l.getD i 0 = 0
  | [], i, _ => by cases i <;> rfl
  | a :: l, 0, h => h a (List.mem_cons_self a l)
  | a :: l, i + 1, h => getD_zero_of_all_zero l i (fun x hx => h x (List.mem_cons_of_mem a hx))

/-- The extended sample of an all-zero array with fill value zero is zero in
every boundary mode and at every index tuple. -/
theorem extendedValue_zero (mode : String) (A : NdArray) (js : List Int)
    (hA : ∀ x ∈ A.data, x = 0) : extendedValue mode 0 A js = 0 := by
  unfold extendedValue
  cases h : foldAll mode A.shape js with
  | none => rfl
  | some idx => exact getD_zero_of_all_zero _ _ hA

/-- A spline sample of an all-zero array with fill value zero is zero, for
every order, boundary mode and query position. -/
theorem mapCoordinatesAt_zero (A : NdArray) (order : Nat) (mode : String) (q : List Rat)
    (hA : ∀ x ∈ A.data, x = 0) : mapCoordinatesAt A order mode 0 q = 0 := by
  unfold mapCoordinatesAt
  by_cases h0 : order = 0
  · rw [if_pos h0]
    exact extendedValue_zero mode A _ hA
  · rw [if_neg h0]
    apply List.sum_eq_zero
    intro x hx
    obtain ⟨js, hjs, rfl⟩ := List.mem_map.1 hx
    rw [extendedValue_zero mode A js hA, mul_zero]

/-- With a non-negative order and a recognised boundary mode the sampling
primitive returns one interpolated scalar per query. -/
theorem map_coordinates_ok (A : NdArray) (order : Int) (mode : String) (cval : Rat)
    (coords : List (List Rat)) (h0 : 0 ≤ order) (hm : mode ∈ validModes) :
    map_coordinates A order mode cval coords =
      Except.ok (coords.map (mapCoordinatesAt A order.toNat mode cval)) := by
  unfold map_coordinates
  rw [if_neg (by omega : ¬ order < 0), if_pos hm]

/-- When every component sampling succeeds, the sampling loop collects the
per-component results. -/
theorem mapExcept_ok (f : NdArray → Except GrydsError (List Rat))
    (g : NdArray → List Rat) (l : List NdArray)
    (h : ∀ a ∈ l, f a = Except.ok (g a)) : mapExcept f l = Except.ok (l.map g) := by
  induction l with
  | nil => rfl
  | cons a l ih =>
    have ha := h a (List.mem_cons_self a l)
    have ih2 := ih (fun b hb => h b (List.mem_cons_of_mem a hb))
    simp [mapExcept, ha, ih2]

/-- Adding an all-zero displacement list of matching length changes nothing. -/
theorem zipWith_add_zeros : ∀ (pt zs : List Rat), (∀ x ∈ zs, x = 0) → zs.length = pt.length →
    List.zipWith (fun a b => a + b) pt zs = pt
  | [], _, _, _ => by simp
  | a :: pt, [], _, hl => by simp at hl
  | a :: pt, z :: zs, h, hl => by
    have hz : z = 0 := h z (List.mem_cons_self z zs)
    have ht := zipWith_add_zeros pt zs (fun x hx => h x (List.mem_cons_of_mem z hx))
      (by simpa using hl)
    simp [hz, ht]

/-- Adding displacement columns drawn from all-zero component lists leaves
every point unchanged. -/
theorem addDisplacement_zeros (disp : List (List Rat)) (n : Nat)
    (hd : ∀ comp ∈ disp, ∀ x ∈ comp, x = 0) (hlen : disp.length = n) :
    ∀ (pts : List (List Rat)) (i : Nat), (∀ pt ∈ pts, pt.length = n) →
      addDisplacement disp i pts = pts := by
  intro pts
  induction pts with
  | nil => intro i _; rfl
  | cons pt pts ih =>
    intro i h
    unfold addDisplacement
    rw [ih (i + 1) (fun x hx => h x (List.mem_cons_of_mem pt hx))]
    congr 1
    apply zipWith_add_zeros
    · intro x hx
      obtain ⟨comp, hcomp, rfl⟩ := List.mem_map.1 hx
      exact getD_zero_of_all_zero comp i (hd comp hcomp)
    · rw [List.length_map, hlen, h pt (List.mem_cons_self pt pts)]

/-- Every entry of a component sub-array is an entry of the parameter data. -/
theorem componentArray_data_mem (params : NdArray) (d : Nat) (x : Rat)
    (hx : x ∈ (componentArray params d).data) : x ∈ params.data := by
  unfold componentArray at hx
  exact List.mem_of_mem_drop (List.mem_of_mem_take hx)

/-- C2: for a transform built from an all-zero control-point grid with the
default fill value, mapping is the identity on every matching-precision point
batch, for every non-negative order and every recognised boundary mode,
including points outside the unit domain. -/
theorem zero_grid_identity (g : NdArray) (order : Int) (mode : String)
    (t : BSplineTransformation) (p : PointBatch)
    (hz : ∀ x ∈ g.data, x = 0) (h0 : 0 ≤ order) (hm : mode ∈ validModes)
    (ht : bsplineInit g order mode 0 = Except.ok t) (hd : p.dtype = DTYPE)
    (hp : ∀ pt ∈ p.points, pt.length = t.ndim) :
    transform_points t p = Except.ok p := by
  rcases hshape : g.shape with _ | ⟨n0, rest⟩
  · simp [bsplineInit, hshape] at ht
  · simp only [bsplineInit, hshape] at ht
    by_cases hne : n0 ≠ (n0 :: rest).length - 1
    · rw [if_pos hne] at ht
      cases ht
    · rw [if_neg hne] at ht
      have ht' : t = BSplineTransformation.mk n0 g order mode 0 := by
        cases ht
        rfl
      subst ht'
      have hdt : ¬ p.dtype ≠ DTYPE := fun hcon => hcon hd
      have hok : ∀ comp ∈ components g,
          map_coordinates comp order mode 0 (p.points.map (scalePoint g.shape.tail)) =
            Except.ok ((p.points.map (scalePoint g.shape.tail)).map
              (mapCoordinatesAt comp order.toNat mode 0)) :=
        fun comp _ => map_coordinates_ok comp order mode 0 _ h0 hm
      have hme := mapExcept_ok
        (fun comp => map_coordinates comp order mode 0 (p.points.map (scalePoint g.shape.tail)))
        (fun comp => (p.points.map (scalePoint g.shape.tail)).map
          (mapCoordinatesAt comp order.toNat mode 0))
        (components g) hok
      simp only [transform_points, if_neg hdt, hme]
      rw [addDisplacement_zeros _ n0 ?_ ?_ p.points 0 hp]
      · intro comp hcomp x hx
        obtain ⟨c, hc, rfl⟩ := List.mem_map.1 hcomp
        obtain ⟨q, hq, rfl⟩ := List.mem_map.1 hx
        obtain ⟨d, hdmem, rfl⟩ := List.mem_map.1 hc
        exact mapCoordinatesAt_zero _ _ _ _ (fun y hy => hz y (componentArray_data_mem g d y hy))
      · simp [components, hshape]

/-- C2 witness: the all-zero one-dimensional grid with four control points,
cubic order and wrap boundary maps the batch containing one in-domain and one
out-of-domain point to itself. -/
theorem zero_grid_identity_witness :
    (∀ x ∈ ({ shape := [1, 4], data := [0, 0, 0, 0] } : NdArray).data, x = 0)
    ∧ (0 : Int) ≤ 3
    ∧ "wrap" ∈ validModes
    ∧ bsplineInit { shape := [1, 4], data := [0, 0, 0, 0] } 3 "wrap" 0 =
        Except.ok (BSplineTransformation.mk 1 { shape := [1, 4], data := [0, 0, 0, 0] } 3 "wrap" 0)
    ∧ transform_points
        (BSplineTransformation.mk 1 { shape := [1, 4], data := [0, 0, 0, 0] } 3 "wrap" 0)
        { dtype := DTYPE, points := [[1/3], [5/2]] } =
      Except.ok { dtype := DTYPE, points := [[1/3], [5/2]] } :=
  ⟨by decide, by decide, by decide, by decide,
    zero_grid_identity { shape := [1, 4], data := [0, 0, 0, 0] } 3 "wrap"
      (BSplineTransformation.mk 1 { shape := [1, 4], data := [0, 0, 0, 0] } 3 "wrap" 0)
      { dtype := DTYPE, points := [[1/3], [5/2]] }
      (by decide) (by decide) (by decide) (by decide) (by decide) (by decide)⟩

/-- C7: construction stores any order, boundary mode and fill value without
validation, and an invalid configuration (negative order or unrecognised
boundary mode) surfaces only at mapping time as the configuration error, for
every matching-precision batch of a transform with at least one dimension. -/
theorem config_validation_deferred (g : NdArray) (order : Int) (mode : String) (cval : Rat)
    (n0 : Nat) (rest : List Nat) (hs : g.shape = n0 :: rest)
    (hok : n0 = (n0 :: rest).length - 1) :
    (∃ t, bsplineInit g order mode cval = Except.ok t
      ∧ t.bspline_order = order ∧ t.mode = mode ∧ t.cval = cval)
    ∧ (∀ t p, bsplineInit g order mode cval = Except.ok t → 1 ≤ n0 → p.dtype = DTYPE →
        (order < 0 ∨ mode ∉ validModes) →
        transform_points t p = Except.error GrydsError.configError) := by
  constructor
  · refine ⟨BSplineTransformation.mk n0 g order mode cval, ?_, rfl, rfl, rfl⟩
    simp only [bsplineInit, hs]
    rw [if_neg (fun hcon => hcon hok)]
  · intro t p ht h1 hd hbad
    simp only [bsplineInit, hs] at ht
    rw [if_neg (fun hcon => hcon hok)] at ht
    have ht' : t = BSplineTransformation.mk n0 g order mode cval := by
      cases ht
      rfl
    subst ht'
    have hdt : ¬ p.dtype ≠ DTYPE := fun hcon => hcon hd
    obtain ⟨k, rfl⟩ : ∃ k, n0 = k + 1 := ⟨n0 - 1, by omega⟩
    have hcomps : components g = componentArray g 0 ::
        ((List.range k).map Nat.succ).map (componentArray g) := by
      unfold components
      rw [hs]
      simp [List.range_succ_eq_map]
    have hc0 : map_coordinates (componentArray g 0) order mode cval
        (p.points.map (scalePoint g.shape.tail)) = Except.error GrydsError.configError := by
      unfold map_coordinates
      rcases hbad with hlt | hmode
      · rw [if_pos hlt]
      · by_cases hlt : order < 0
        · rw [if_pos hlt]
        · rw [if_neg hlt, if_neg hmode]
    simp only [transform_points, if_neg hdt, hcomps, mapExcept, hc0]

/-- C7 witness: the scenario grid accepts a negative order and an unknown
boundary mode at construction, and such a transform fails with the
configuration error at mapping time. -/
theorem config_validation_deferred_witness :
    exGrid.shape = 2 :: [3, 3]
    ∧ (2 : Nat) = (2 :: [3, 3]).length - 1
    ∧ ((∃ t, bsplineInit exGrid (-1) "evil" (1/2) = Except.ok t
        ∧ t.bspline_order = -1 ∧ t.mode = "evil" ∧ t.cval = 1/2)
      ∧ (∀ t p, bsplineInit exGrid (-1) "evil" (1/2) = Except.ok t → 1 ≤ 2 → p.dtype = DTYPE →
          ((-1 : Int) < 0 ∨ "evil" ∉ validModes) →
          transform_points t p = Except.error GrydsError.configError)) :=
  ⟨rfl, by decide,
    config_validation_deferred exGrid (-1) "evil" (1/2) 2 [3, 3] rfl (by decide)⟩

/-- Adding the displacement columns preserves the number of points. -/
theorem addDisplacement_length : ∀ (disp : List (List Rat)) (i : Nat) (pts : List (List Rat)),
    (addDisplacement disp i pts).length = pts.length
  | _, _, [] => rfl
  | disp, i, pt :: pts => by
    simp [addDisplacement, addDisplacement_length disp (i + 1) pts]

/-- Entry i of the displacement-added batch is entry i of the input plus
column (start index plus i) of the displacement lists. -/
theorem addDisplacement_getElem? : ∀ (disp pts : List (List Rat)) (i0 i : Nat),
    (addDisplacement disp i0 pts)[i]? = (pts[i]?).map (fun pt =>
      List.zipWith (fun a b => a + b) pt (disp.map (fun comp => comp.getD (i0 + i) 0)))
  | disp, [], i0, i => by simp [addDisplacement]
  | disp, pt :: pts, i0, 0 => by simp [addDisplacement]
  | disp, pt :: pts, i0, i + 1 => by
    have hrec := addDisplacement_getElem? disp pts (i0 + 1) i
    simp only [addDisplacement, List.getElem?_cons_succ]
    rw [hrec, show i0 + 1 + i = i0 + (i + 1) from by omega]

/-- Reading a mapped list at an in-bounds position with any default yields the
function applied to the source entry. -/
theorem getD_map_eq {α β : Type} (f : α → β) (l : List α) (i : Nat) (da : α) (db : β)
    (h : i < l.length) : (l.map f).getD i db = f (l.getD i da) := by
  rw [List.getD_eq_getElem?_getD, List.getD_eq_getElem?_getD, List.getElem?_map,
    List.getElem?_eq_getElem h]
  rfl

/-- C8: for a valid configuration and a matching-precision batch, the mapping
returns one output point per input point (the empty batch giving the empty
batch), in the precision of the input, and every output point is the input
point plus its assembled per-axis displacement vector. -/
theorem batch_pointwise_output (t : BSplineTransformation) (p : PointBatch)
    (h0 : 0 ≤ t.bspline_order) (hm : t.mode ∈ validModes) (hd : p.dtype = DTYPE) :
    ∃ out, transform_points t p = Except.ok out
      ∧ out.dtype = p.dtype
      ∧ out.points.length = p.points.length
      ∧ ∀ i, i < p.points.length →
          out.points[i]? = some (List.zipWith (fun a b => a + b) (p.points.getD i [])
            (displacementVec t (p.points.getD i []))) := by
  have hdt : ¬ p.dtype ≠ DTYPE := fun hcon => hcon hd
  have hok : ∀ comp ∈ components t.parameters,
      map_coordinates comp t.bspline_order t.mode t.cval
        (p.points.map (scalePoint t.parameters.shape.tail)) =
      Except.ok ((p.points.map (scalePoint t.parameters.shape.tail)).map
        (mapCoordinatesAt comp t.bspline_order.toNat t.mode t.cval)) :=
    fun comp _ => map_coordinates_ok _ _ _ _ _ h0 hm
  have hme := mapExcept_ok
    (fun comp => map_coordinates comp t.bspline_order t.mode t.cval
      (p.points.map (scalePoint t.parameters.shape.tail)))
    (fun comp => (p.points.map (scalePoint t.parameters.shape.tail)).map
      (mapCoordinatesAt comp t.bspline_order.toNat t.mode t.cval))
    (components t.parameters) hok
  refine ⟨PointBatch.mk p.dtype (addDisplacement ((components t.parameters).map
      (fun comp => (p.points.map (scalePoint t.parameters.shape.tail)).map
        (mapCoordinatesAt comp t.bspline_order.toNat t.mode t.cval))) 0 p.points),
    ?_, rfl, ?_, ?_⟩
  · simp only [transform_points, if_neg hdt, hme]
  · exact addDisplacement_length _ 0 p.points
  · intro i hi
    have hpt : p.points.getD i [] = p.points[i] := by
      rw [List.getD_eq_getElem?_getD, List.getElem?_eq_getElem hi]
      rfl
    have hi2 : i < (p.points.map (scalePoint t.parameters.shape.tail)).length := by
      simpa using hi
    have hcol : ((components t.parameters).map
        (fun comp => (p.points.map (scalePoint t.parameters.shape.tail)).map
          (mapCoordinatesAt comp t.bspline_order.toNat t.mode t.cval))).map
          (fun comp => comp.getD i 0) = displacementVec t (p.points[i]) := by
      rw [List.map_map]
      unfold displacementVec
      apply List.map_congr_left
      intro c hc
      simp only [Function.comp_apply]
      rw [getD_map_eq _ _ i [] 0 hi2,
        getD_map_eq (scalePoint t.parameters.shape.tail) p.points i [] [] hi, hpt]
    show (addDisplacement _ 0 p.points)[i]? = _
    rw [addDisplacement_getElem?, List.getElem?_eq_getElem hi, hpt]
    simp only [Option.map_some', Nat.zero_add]
    rw [hcol]

/-- C8 witness: the scenario transform maps the single-point batch to a batch
of the same length, precision, and the pointwise sum with its displacement. -/
theorem batch_pointwise_output_witness :
    (0 : Int) ≤ exTransform.bspline_order
    ∧ exTransform.mode ∈ validModes
    ∧ ({ dtype := DTYPE, points := [[1/2, 1/2]] } : PointBatch).dtype = DTYPE
    ∧ (∃ out, transform_points exTransform { dtype := DTYPE, points := [[1/2, 1/2]] } =
          Except.ok out
        ∧ out.dtype = ({ dtype := DTYPE, points := [[1/2, 1/2]] } : PointBatch).dtype
        ∧ out.points.length =
            ({ dtype := DTYPE, points := [[1/2, 1/2]] } : PointBatch).points.length
        ∧ ∀ i, i < ({ dtype := DTYPE, points := [[1/2, 1/2]] } : PointBatch).points.length →
            out.points[i]? = some (List.zipWith (fun a b => a + b)
              (({ dtype := DTYPE, points := [[1/2, 1/2]] } : PointBatch).points.getD i [])
              (displacementVec exTransform
                (({ dtype := DTYPE, points := [[1/2, 1/2]] } : PointBatch).points.getD i [])))) :=
  ⟨by decide, by decide, by decide,
    batch_pointwise_output exTransform { dtype := DTYPE, points := [[1/2, 1/2]] }
      (by decide) (by decide) (by decide)⟩

/-- Writing one heap cell does not change what is read from a different
cell. -/
theorem readCell_writeCell_ne (h : Heap) (r j : Nat) (g : NdArray) (hne : j ≠ r) :
    readCell (writeCell h r g) j = readCell h j := by
  unfold readCell writeCell
  rw [List.getD_eq_getElem?_getD, List.getD_eq_getElem?_getD,
    List.getElem?_set_ne (fun hcon => hne hcon.symm)]

/-- A successful mapping call returns the heap and the transform unchanged. -/
theorem transformPointsMethod_preserves (h : Heap) (tr : BSplineTransformationRef)
    (p : PointBatch) (out : PointBatch) (hh : Heap) (tt : BSplineTransformationRef)
    (hm2 : transformPointsMethod h tr p = Except.ok (out, hh, tt)) : hh = h ∧ tt = tr := by
  unfold transformPointsMethod at hm2
  rcases hx : transformPointsHeap h tr p with e | o
  · rw [hx] at hm2
    cases hm2
  · rw [hx] at hm2
    injection hm2 with hpair
    injection hpair with h1 hrest
    injection hrest with h2 h3
    exact ⟨h2.symm, h3.symm⟩

/-- Any sequence of mapping calls leaves the heap and the transform exactly as
they were. -/
theorem runCalls_preserves (h : Heap) (tr : BSplineTransformationRef) :
    ∀ ps : List PointBatch, runCalls h tr ps = (h, tr)
  | [] => rfl
  | p :: ps => by
    unfold runCalls
    rcases hx : transformPointsMethod h tr p with e | o
    · simp only [hx]
      exact runCalls_preserves h tr ps
    · simp only [hx]
      obtain ⟨h1, h2⟩ := transformPointsMethod_preserves h tr p o.1 o.2.1 o.2.2 (by rw [hx])
      rw [h1, h2]
      exact runCalls_preserves h tr ps

/-- C9: the control-point grid is copied into storage owned by the transform
at construction, not aliased to the caller cell; mapping reads that storage
only, so mutating the caller cell after construction never changes mapping
results, and any sequence of mapping calls leaves the stored grid, order,
boundary mode and fill value unchanged. -/
theorem grid_copied_and_mapping_readonly (h : Heap) (r : Nat) (order : Int) (mode : String)
    (cval : Rat) (h2 : Heap) (tr : BSplineTransformationRef)
    (hr : r < h.cells.length)
    (hinit : bsplineInitHeap h r order mode cval = Except.ok (h2, tr)) :
    tr.paramsRef ≠ r
    ∧ (∀ g' p, transformPointsHeap (writeCell h2 r g') tr p = transformPointsHeap h2 tr p)
    ∧ (∀ p out hh tt, transformPointsMethod h2 tr p = Except.ok (out, hh, tt) →
        hh = h2 ∧ tt = tr)
    ∧ (∀ ps : List PointBatch, runCalls h2 tr ps = (h2, tr)) := by
  rcases hbi : bsplineInit (readCell h r) order mode cval with e | t
  · rw [bsplineInitHeap, hbi] at hinit
    cases hinit
  · rw [bsplineInitHeap, hbi] at hinit
    injection hinit with hpair
    injection hpair with hh2 htr
    subst hh2
    subst htr
    refine ⟨?_, ?_, fun p out hh tt => transformPointsMethod_preserves _ _ p out hh tt,
      runCalls_preserves _ _⟩
    · show h.cells.length ≠ r
      omega
    · intro g' p
      unfold transformPointsHeap
      congr 1
      unfold derefTransform
      congr 1
      exact readCell_writeCell_ne _ r _ g' (by show h.cells.length ≠ r; omega)

/-- C9 witness: a one-cell heap holding the scenario grid; construction
copies it into a fresh second cell referenced by the transform. -/
theorem grid_copied_and_mapping_readonly_witness :
    (0 : Nat) < (Heap.mk [exGrid]).cells.length
    ∧ bsplineInitHeap (Heap.mk [exGrid]) 0 1 "mirror" 0 =
        Except.ok (Heap.mk [exGrid, exGrid], BSplineTransformationRef.mk 1 1 "mirror" 0 2)
    ∧ ((BSplineTransformationRef.mk 1 1 "mirror" 0 2).paramsRef ≠ 0
      ∧ (∀ g' p, transformPointsHeap (writeCell (Heap.mk [exGrid, exGrid]) 0 g')
            (BSplineTransformationRef.mk 1 1 "mirror" 0 2) p =
          transformPointsHeap (Heap.mk [exGrid, exGrid])
            (BSplineTransformationRef.mk 1 1 "mirror" 0 2) p)
      ∧ (∀ p out hh tt, transformPointsMethod (Heap.mk [exGrid, exGrid])
            (BSplineTransformationRef.mk 1 1 "mirror" 0 2) p = Except.ok (out, hh, tt) →
          hh = Heap.mk [exGrid, exGrid] ∧ tt = BSplineTransformationRef.mk 1 1 "mirror" 0 2)
      ∧ (∀ ps : List PointBatch, runCalls (Heap.mk [exGrid, exGrid])
            (BSplineTransformationRef.mk 1 1 "mirror" 0 2) ps =
          (Heap.mk [exGrid, exGrid], BSplineTransformationRef.mk 1 1 "mirror" 0 2))) :=
  ⟨by decide, by decide,
    grid_copied_and_mapping_readonly (Heap.mk [exGrid]) 0 1 "mirror" 0
      (Heap.mk [exGrid, exGrid]) (BSplineTransformationRef.mk 1 1 "mirror" 0 2)
      (by decide) (by decide)⟩
